import Mathlib

/-!
# Verification of `supernote_canvas` capture-selection and ingestion pipeline

Shallow embedding of `src/supernote_canvas/__init__.py`.

Modelling conventions:
* Python `bytes` values are `ByteStr := List Nat`.
* Modification times (`os.path.getmtime`, a float in Python) are modelled as
  `Nat`; only their ordering is ever inspected by the code.
* Filesystem and subprocess effects are passed in explicitly:
  - `FS` describes the observable filesystem behaviour used by
    `_latest_screenshot` and the folder capture strategy
    (`os.listdir`, `os.path.getmtime`, `os.path.abspath`, `open(...).read()`);
  - `RunOutcome` describes one `subprocess.run` call's observable outcome;
    `raisedOther` stands for an exception other than `FileNotFoundError` /
    `subprocess.TimeoutExpired` (e.g. `PermissionError` when the executable
    exists but is not executable), which `subprocess.run` can raise.
* Python code that may raise an exception to its caller is embedded in
  `Except Unit`; `.error ()` means an uncaught exception propagates.
* `print` calls are accumulated as message lists; exception text interpolated
  into f-strings (and the surrounding quote characters) is elided from the
  modelled message constants.
-/

set_option maxRecDepth 8192

/-- Python `bytes` modelled as a list of byte values. -/
abbrev ByteStr := List Nat

/-- Truthiness of a Python `Optional[bytes]`: `None` and `b""` are falsy. -/
def pyTruthyBytes : Option ByteStr → Bool
  | none => false
  | some b => !(List.isEmpty b)

/-- Truthiness of a Python `str`: the empty string is falsy. -/
def pyTruthyStr (s : String) : Bool := !(List.isEmpty s.toList)

/-- Truthiness of a Python `Optional[str]`: `None` and `""` are falsy. -/
def pyTruthyOptStr : Option String → Bool
  | none => false
  | some s => pyTruthyStr s

/-- `s.startswith(p)` on the underlying character lists. -/
def strStartsWith (s p : String) : Bool := p.toList.isPrefixOf s.toList

/-- `s.endswith(p)` on the underlying character lists. -/
def strEndsWith (s p : String) : Bool := p.toList.isSuffixOf s.toList

/-- Python's `needle in hay` substring test, on character lists. -/
def listContainsSub (needle : List Char) : List Char → Bool
  | [] => needle.isEmpty
  | c :: rest => needle.isPrefixOf (c :: rest) || listContainsSub needle rest

/-- Python's `needle in hay` substring test on strings. -/
def strContainsSub (hay needle : String) : Bool :=
  listContainsSub needle.toList hay.toList

/-- ASCII whitespace, as stripped by Python `str.strip()` (the further
Unicode whitespace Python also strips never occurs in `adb` output). -/
def isPyWhitespace (c : Char) : Bool :=
  c == ' ' || c == '\t' || c == '\n' || c == '\r' || c == '\x0b' || c == '\x0c'

/-- Python `str.strip()` (whitespace at both ends). -/
def pyStrip (s : String) : String :=
  String.mk (((s.toList.dropWhile isPyWhitespace).reverse.dropWhile isPyWhitespace).reverse)

/-- Split a character list on a separator character; like Python
`str.split(sep)`, the empty input yields one empty piece. -/
def splitOnChar (sep : Char) : List Char → List (List Char)
  | [] => [[]]
  | c :: rest =>
    let r := splitOnChar sep rest
    if c == sep then [] :: r
    else
      match r with
      | [] => [[c]]
      | h :: t => (c :: h) :: t

/-- Python `s.split("\n")`. -/
def pySplitNewline (s : String) : List String :=
  (splitOnChar '\n' s.toList).map String.mk

/-- Index of the last occurrence of `c` in `cs`, if any. -/
def lastIdxOf (c : Char) (cs : List Char) : Option Nat :=
  ((List.range cs.length).filter (fun i => cs.get? i == some c)).getLast?

/-- The extension component of `os.path.splitext(p)` (POSIX rules): the suffix
from the last `.` that lies after the last `/`, provided at least one non-dot
character of the basename precedes that dot (so dotfiles like `".jpg"` have no
extension). -/
def splitextExt (p : String) : String :=
  let cs := p.toList
  let start := match lastIdxOf '/' cs with
    | none => 0
    | some i => i + 1
  match lastIdxOf '.' cs with
  | none => ""
  | some d =>
    if start ≤ d ∧ ((cs.drop start).take (d - start)).any (fun c => c != '.') then
      String.mk (cs.drop d)
    else ""

/-- `str.lower()` (only ASCII matters for the extensions compared here). -/
def pyLower (s : String) : String := String.mk (s.toList.map Char.toLower)

/-- `os.path.join(a, b)` (POSIX). -/
def pathJoin (a b : String) : String :=
  if strStartsWith b "/" then b
  else if a.isEmpty || strEndsWith a "/" then a ++ b
  else a ++ "/" ++ b

/-! ## Screenshot Locator (`_latest_screenshot`) -/

/-- Observable filesystem behaviour consumed by the embedded code.
`listdir = none` models `os.listdir` raising `FileNotFoundError`,
`NotADirectoryError` or `PermissionError`; `getmtime p = none` models
`os.path.getmtime(p)` raising `OSError`; `readFile p = none` models
`open(p, "rb")` / `.read()` raising `OSError`. -/
structure FS where
  listdir : Option (List String)
  getmtime : String → Option Nat
  abspath : String → String
  readFile : String → Option ByteStr

/-- The extension filter of `_latest_screenshot`:
`ext.lower() in {".png", ".jpg", ".jpeg"}`. -/
def extMatches (name : String) : Bool :=
  [".png", ".jpg", ".jpeg"].contains (pyLower (splitextExt name))

/-- The `(mtime, full_path)` candidate pairs accumulated by the loop in
`_latest_screenshot`, in `os.listdir` order; files whose `getmtime` raises
`OSError` are skipped (`continue`). -/
def screenshotCandidatesOf (fs : FS) (path : String) (names : List String) :
    List (Nat × String) :=
  names.filterMap (fun name =>
    if extMatches name then
      match fs.getmtime (pathJoin path name) with
      | some m => some (m, pathJoin path name)
      | none => none
    else none)

/-- Candidate list of `_latest_screenshot`, empty when `os.listdir` fails. -/
def screenshotCandidates (fs : FS) (path : String) : List (Nat × String) :=
  match fs.listdir with
  | none => []
  | some names => screenshotCandidatesOf fs path names

/-- One insertion step of a stable descending sort on the mtime key: the new
element goes before the first element whose key it weakly exceeds. Inserting
elements from the right end of the list first makes this exactly the behaviour
of CPython's stable `list.sort(key=mtime, reverse=True)`, where entries with
equal keys retain their original relative order. -/
def insertDesc (x : Nat × String) : List (Nat × String) → List (Nat × String)
  | [] => [x]
  | y :: ys => if y.1 ≤ x.1 then x :: y :: ys else y :: insertDesc x ys

/-- Stable sort by mtime descending (`candidates.sort(key=lambda t: t[0],
reverse=True)`). -/
def sortDesc : List (Nat × String) → List (Nat × String)
  | [] => []
  | x :: xs => insertDesc x (sortDesc xs)

/-- `_latest_screenshot(path)`: filter `os.listdir` entries by extension,
collect modification times, sort by mtime descending (stable), return the
absolute path of the first entry, or `None` when the directory is unreadable
or no candidate matched. -/
def _latest_screenshot (fs : FS) (path : String) : Option String :=
  match fs.listdir with
  | none => none
  | some names =>
    let candidates := screenshotCandidatesOf fs path names
    match (sortDesc candidates).head? with
    | none => none
    | some c => some (fs.abspath c.2)

/-- `latest_screenshot`, the public wrapper that forwards to
`_latest_screenshot`. -/
def latest_screenshot (fs : FS) (path : String) : Option String :=
  _latest_screenshot fs path

/-- First element of the list attaining the maximal mtime, if any. -/
def argmaxFirst : List (Nat × String) → Option (Nat × String)
  | [] => none
  | x :: xs =>
    match argmaxFirst xs with
    | none => some x
    | some m => some (if m.1 > x.1 then m else x)

/-! ## Device Bridge Probe and Device Capture Adapter
(`_is_adb_available`, `_is_device_connected`, `_capture_via_adb`) -/

/-- Observable outcome of one `subprocess.run` call. `completed` carries the
process's return code and captured stdout; `fileNotFound` models
`FileNotFoundError` (tool missing from PATH); `timedOut` models
`subprocess.TimeoutExpired` (the bounded timeout elapsed); `raisedOther`
models any other exception raised by the spawn, e.g. `PermissionError` when
the file exists but is not executable. -/
inductive RunOutcome (α : Type) where
  | completed (returncode : Int) (stdout : α)
  | fileNotFound
  | timedOut
  | raisedOther
deriving DecidableEq

/-- Outcomes of the three `adb` invocations the module can make. The optional
`ADB_DEVICE_SERIAL` configuration only alters the spawned command line
(`-s <serial>`), which these outcome fields already abstract over, so it is
not modelled separately. `adb devices` runs with `text=True`, hence its
stdout is a `String`; the other two produce raw bytes. -/
structure AdbEnv where
  versionOutcome : RunOutcome ByteStr
  devicesOutcome : RunOutcome String
  screencapOutcome : RunOutcome ByteStr

/-- `_is_adb_available()`: run `adb version` (timeout 5), return
`returncode == 0`; `FileNotFoundError` and `TimeoutExpired` are caught and
yield `False`; any other spawn exception is not caught and propagates
(`.error ()`). -/
def _is_adb_available (env : AdbEnv) : Except Unit Bool :=
  match env.versionOutcome with
  | .completed rc _ => .ok (rc == 0)
  | .fileNotFound => .ok false
  | .timedOut => .ok false
  | .raisedOther => .error ()

/-- `_is_device_connected()`: `False` if the bridge probe says unavailable
(that probe call sits outside the `try`, so its exceptions propagate);
otherwise run `adb devices` (timeout 5), require exit code 0, drop the header
line, and count non-blank lines containing `"device"`. The `except
(TimeoutExpired, Exception)` clause swallows every failure of this second
spawn, yielding `False`. -/
def _is_device_connected (env : AdbEnv) : Except Unit Bool := do
  let avail ← _is_adb_available env
  if !avail then
    return false
  match env.devicesOutcome with
  | .completed rc out =>
    if rc != 0 then
      return false
    let lines := (pySplitNewline (pyStrip out)).drop 1
    let devices := lines.filter (fun l => !(pyStrip l).isEmpty && strContainsSub l "device")
    return decide (devices.length > 0)
  | _ => return false

/-- `_capture_via_adb()`: fail fast (returning `None`) when the bridge is
unavailable or no device is connected — the short-circuiting gate calls sit
outside the `try`, so an exception from `_is_adb_available` propagates.
Otherwise run `adb exec-out screencap -p` (timeout 10, `check=True`); return
stdout when the exit code is 0 and stdout is non-empty; `except
(TimeoutExpired, CalledProcessError, Exception)` swallows every failure of
this spawn, yielding `None`. -/
def _capture_via_adb (env : AdbEnv) : Except Unit (Option ByteStr) := do
  let avail ← _is_adb_available env
  if !avail then
    return none
  let connected ← _is_device_connected env
  if !connected then
    return none
  match env.screencapOutcome with
  | .completed rc out =>
    if rc == 0 && !(List.isEmpty out) then
      return some out
    else
      return none
  | _ => return none

/-! ## Capture Orchestrator (`_on_capture_click`) -/

/-- One uploaded file as found in `upload_widget.value`: either the dict
format (`{"content": ..., "metadata": {"name": ...}}`, with `content = none`
modelling a missing `"content"` key and `metaName = none` modelling a
missing `"metadata"`/`"name"` key, defaulted to `""`), or the tuple format
`(content, metadata)` of length ≥ 2, or any other shape (including tuples of
length < 2), for which the handler assigns nothing. -/
inductive UploadedFile where
  | dictFmt (content : Option ByteStr) (metaName : Option String)
  | tupleFmt (content : Option ByteStr) (name : Option String)
  | otherFmt

/-- The `upload_widget.value` object: a dict (truthy iff non-empty, values
listed in order), or a truthy non-dict value (for which the `isinstance`
check fails and nothing is assigned). -/
inductive UploadValue where
  | dictVal (files : List UploadedFile)
  | nonDictVal

/-- The `(image_data, source_path)` assignments performed by the upload
branch of `_on_capture_click` (lines 533–547): take the first value of a
truthy dict and extract content plus filename; `source_path` is set to the
(possibly empty) name string in the dict and tuple formats and left
unassigned (`none`) otherwise. -/
def uploadExtract (w : UploadValue) : Option ByteStr × Option String :=
  match w with
  | .dictVal [] => (none, none)
  | .dictVal (uf :: _) =>
    match uf with
    | .dictFmt content metaName => (content, some (metaName.getD ""))
    | .tupleFmt content name => (content, some (name.getD ""))
    | .otherFmt => (none, none)
  | .nonDictVal => (none, none)

/-- `"Capturing via USB (ADB)..."` -/
def msgCapturingUsb : String := "Capturing via USB (ADB)..."

/-- `"✓ Captured via USB (ADB)"` -/
def msgUsbCaptured : String := "✓ Captured via USB (ADB)"

/-- `"✓ Captured via file upload"` -/
def msgUploadCaptured : String := "✓ Captured via file upload"

/-- `"Trying folder-based capture..."` -/
def msgTryingFolder : String := "Trying folder-based capture..."

/-- `✓ Captured via folder from '<dir>'` (quote characters elided). -/
def msgFolderCaptured (dir : String) : String :=
  "✓ Captured via folder from " ++ dir

/-- `Failed to read screenshot file: <exc>` (exception text elided). -/
def msgFolderReadFailed : String := "Failed to read screenshot file"

/-- The remote-specific no-image message. -/
def msgRemoteNoUpload : String :=
  "No screenshot uploaded.\nPlease use the file upload widget above to select a screenshot file."

/-- The local no-image message used when ADB was available but failed
(quote characters elided). -/
def msgLocalAdbFailed (dir : String) : String :=
  "ADB capture failed. No screenshot files found in " ++ dir ++ ".\n" ++
  "Make sure you have taken a screenshot as .png, .jpg, or .jpeg, " ++
  "or check your USB connection."

/-- The local no-image message used when ADB was unavailable
(quote characters elided). -/
def msgLocalNoFiles (dir : String) : String :=
  "No screenshot files found in " ++ dir ++ ".\n" ++
  "Make sure you have taken a screenshot as .png, .jpg, or .jpeg."

/-- Closure state and ambient environment of one Capture-button click.
`isRemote` and `adbAvailable` are the values computed once in `draw()`
(`_is_remote_environment()` and `_is_adb_available() and
_is_device_connected()`); `uploadWidget` is `some` the widget's `.value`
when the upload widget exists (it is created only for remote environments)
and `none` when `upload_widget` is `None`; `screenshotDir` is the module
configuration `SCREENSHOT_DIR`. -/
structure ClickEnv where
  isRemote : Bool
  adbAvailable : Bool
  uploadWidget : Option UploadValue
  adb : AdbEnv
  fs : FS
  screenshotDir : String

/-- The handler's state at the point where it either printed a no-image
message and returned, or is about to call `_process_and_save_image`:
`image_data`, `source_path`, `capture_method`, and everything printed so
far. -/
structure OrchResult where
  imageData : Option ByteStr
  sourcePath : Option String
  captureMethod : String
  msgs : List String
deriving DecidableEq

/-- `_on_capture_click` (lines 512–590), up to the point where the handler
would call `_process_and_save_image`. The three strategies run in priority
order under their gates exactly as in the source:
1. USB: `not is_remote and adb_available`; bytes kept only when truthy.
2. Upload: `image_data is None and is_remote and upload_widget`; the
   assignments of the branch are `uploadExtract` (both `image_data` and
   `source_path` are unassigned, hence still `None`, before this branch,
   so modelling "no assignment" as assigning the previous `none` is exact).
3. Folder: `image_data is None and not is_remote`; on a truthy locator
   result read the file (an `OSError` prints a message and leaves the state
   unchanged).
If `image_data` is still `None` a context-dependent message is printed.
An exception escaping `_capture_via_adb` propagates out of the handler. -/
def _on_capture_click (env : ClickEnv) : Except Unit OrchResult :=
  -- Priority 1: ADB capture
  let step1 : Except Unit (Option ByteStr × String × List String) :=
    if !env.isRemote && env.adbAvailable then
      match _capture_via_adb env.adb with
      | .error e => .error e
      | .ok d =>
        if pyTruthyBytes d then .ok (d, "USB (ADB)", [msgCapturingUsb, msgUsbCaptured])
        else .ok (d, "", [msgCapturingUsb])
    else .ok (none, "", [])
  match step1 with
  | .error e => .error e
  | .ok (image_data, capture_method, msgs) =>
    -- Priority 2: file upload
    let (image_data, source_path, capture_method, msgs) :
        Option ByteStr × Option String × String × List String :=
      if image_data.isNone && env.isRemote && env.uploadWidget.isSome then
        match env.uploadWidget with
        | some w =>
          let (c, sp) := uploadExtract w
          if pyTruthyBytes c then (c, sp, "file upload", msgs ++ [msgUploadCaptured])
          else (c, sp, capture_method, msgs)
        | none => (image_data, none, capture_method, msgs)
      else (image_data, none, capture_method, msgs)
    -- Priority 3: folder-based capture
    let (image_data, source_path, capture_method, msgs) :
        Option ByteStr × Option String × String × List String :=
      if image_data.isNone && !env.isRemote then
        let msgs := msgs ++ [msgTryingFolder]
        match _latest_screenshot env.fs env.screenshotDir with
        | some src =>
          if pyTruthyStr src then
            match env.fs.readFile src with
            | some bs =>
              (some bs, some src, "folder", msgs ++ [msgFolderCaptured env.screenshotDir])
            | none => (image_data, source_path, capture_method, msgs ++ [msgFolderReadFailed])
          else (image_data, source_path, capture_method, msgs)
        | none => (image_data, source_path, capture_method, msgs)
      else (image_data, source_path, capture_method, msgs)
    -- No image: print the context-dependent diagnostic and return
    if image_data.isNone then
      .ok { imageData := image_data, sourcePath := source_path,
            captureMethod := capture_method,
            msgs := msgs ++ [if env.isRemote then msgRemoteNoUpload
                             else if env.adbAvailable then msgLocalAdbFailed env.screenshotDir
                             else msgLocalNoFiles env.screenshotDir] }
    else
      .ok { imageData := image_data, sourcePath := source_path,
            captureMethod := capture_method, msgs := msgs }

/-! ## Image Ingestion (`_process_and_save_image`) -/

/-- `DIAGRAM_DIR`, the fixed output directory name. -/
def DIAGRAM_DIR : String := "diagrams"

/-- `Could not create diagrams directory 'diagrams': <exc>`
(quote characters and exception text elided). -/
def msgMkdirFailed : String :=
  "Could not create diagrams directory " ++ DIAGRAM_DIR

/-- `Failed to save image to '<dest>': <exc>`
(quote characters and exception text elided). -/
def msgWriteFailed (dest : String) : String :=
  "Failed to save image to " ++ dest

/-- `Could not apply EXIF-based rotation: <exc>` (exception text elided). -/
def msgExifFailed : String := "Could not apply EXIF-based rotation"

/-- `format_map = {"PNG": ".png", "JPEG": ".jpg", "JPEG2000": ".jpg"}` with
`.get(fmt, ".png")`; a `None`/unknown PIL format falls back to `".png"`. -/
def format_map (fmt : String) : String :=
  if fmt == "PNG" then ".png"
  else if fmt == "JPEG" then ".jpg"
  else if fmt == "JPEG2000" then ".jpg"
  else ".png"

/-- Ambient environment of one `_process_and_save_image` call.
`timestamp` is `datetime.now().strftime("%Y%m%d_%H%M%S")` (the current local
time at one-second granularity, already formatted). `pilAvailable` models
whether `from PIL import ...` succeeds (the module is imported at two places;
one library, one flag). `pilFormat d` is the format PIL reports for image
bytes `d` (`none` models `Image.open` raising, whereupon the default `.png`
survives). `makedirsOk`/`writeOk` model `os.makedirs` / `open`+`write`
succeeding vs raising `OSError`.

Modelled from the spec: the imaging library itself is not repository code,
so its orientation-normalization step is abstracted as `exifTransposeSave d`
— the bytes the `ImageOps.exif_transpose` + `save` round-trip leaves in the
file whose current content is `d` (`none` models that step raising, which is
caught and logged) — together with `hasOrientation d`, whether the image
carries orientation metadata ("apply an orientation-normalization transform
based on embedded orientation metadata"). -/
structure SaveEnv where
  timestamp : String
  pilAvailable : Bool
  pilFormat : ByteStr → Option String
  makedirsOk : Bool
  writeOk : Bool
  exifTransposeSave : ByteStr → Option ByteStr
  hasOrientation : ByteStr → Bool

/-- Observable outcome of `_process_and_save_image`: the returned path
(`none` on failure), the generated filename, everything printed, the
destination file's content right after the `f.write(image_data)` call, and
its content when the function returns. The partial content a *failing* write
may leave behind is not modelled (both content fields are `none` then). -/
structure SaveResult where
  result : Option String
  filename : String
  msgs : List String
  contentsAfterWrite : Option ByteStr
  finalContents : Option ByteStr

/-- `_process_and_save_image(image_data, source_path)` (lines 176–239):
choose the extension from a truthy `source_path` hint
(`os.path.splitext(source_path)[1] or ".png"`), else by PIL byte inspection
defaulting to `".png"`; build `diagram_<timestamp><ext>`; `os.makedirs`
failure prints and returns `None`; write failure (`OSError`) prints and
returns `None`; then, when PIL is importable, best-effort EXIF-based
rotation rewrites the file in place, any failure there being printed but not
propagated; the destination path is returned. -/
def _process_and_save_image (env : SaveEnv) (image_data : ByteStr)
    (source_path : Option String) : SaveResult :=
  let src_ext :=
    if pyTruthyOptStr source_path then
      let e := splitextExt (source_path.getD "")
      if pyTruthyStr e then e else ".png"
    else if env.pilAvailable then
      match env.pilFormat image_data with
      | some fmt => format_map fmt
      | none => ".png"
    else ".png"
  let filename := "diagram_" ++ env.timestamp ++ src_ext
  if !env.makedirsOk then
    { result := none, filename := filename, msgs := [msgMkdirFailed],
      contentsAfterWrite := none, finalContents := none }
  else
    let dest_path := pathJoin DIAGRAM_DIR filename
    if !env.writeOk then
      { result := none, filename := filename, msgs := [msgWriteFailed dest_path],
        contentsAfterWrite := none, finalContents := none }
    else if env.pilAvailable then
      match env.exifTransposeSave image_data with
      | some newContents =>
        { result := some dest_path, filename := filename, msgs := [],
          contentsAfterWrite := some image_data, finalContents := some newContents }
      | none =>
        { result := some dest_path, filename := filename, msgs := [msgExifFailed],
          contentsAfterWrite := some image_data, finalContents := some image_data }
    else
      { result := some dest_path, filename := filename, msgs := [],
        contentsAfterWrite := some image_data, finalContents := some image_data }

/-! ## Concrete environments used by witnesses and counterexamples -/

/-- A directory `d` with two candidates of distinct mtimes
(`x.png` at 10, `y.jpg` at 5) and one non-candidate (`notes.txt`). -/
def fsDistinct : FS :=
  { listdir := some ["y.jpg", "notes.txt", "x.png"]
    getmtime := fun p => if p == "d/x.png" then some 10
                         else if p == "d/y.jpg" then some 5 else none
    abspath := fun s => s
    readFile := fun _ => some [7, 7] }

/-- A directory `d` with two candidates sharing the same mtime, `a.png`
listed before `b.png`. -/
def fsTie : FS :=
  { listdir := some ["a.png", "b.png"]
    getmtime := fun _ => some 5
    abspath := fun s => s
    readFile := fun _ => some [1] }

/-- An `adb` whose version query spawn fails with an exception other than
`FileNotFoundError`/`TimeoutExpired` (e.g. `PermissionError`). -/
def adbRaises : AdbEnv :=
  { versionOutcome := .raisedOther
    devicesOutcome := .raisedOther
    screencapOutcome := .raisedOther }

/-- An `adb` that is present, sees one connected device, and captures the
bytes `[9, 9]`. -/
def adbGood : AdbEnv :=
  { versionOutcome := .completed 0 []
    devicesOutcome := .completed 0 "List of devices attached\nserial01\tdevice"
    screencapOutcome := .completed 0 [9, 9] }

/-- An `adb` that is missing from PATH. -/
def adbMissing : AdbEnv :=
  { versionOutcome := .fileNotFound
    devicesOutcome := .fileNotFound
    screencapOutcome := .fileNotFound }

deriving instance DecidableEq for Except

/-- A local click environment where ADB is available and captures `[9, 9]`. -/
def envUsbClick : ClickEnv :=
  { isRemote := false, adbAvailable := true, uploadWidget := none,
    adb := adbGood, fs := fsDistinct, screenshotDir := "d" }

/-- A remote click environment whose upload widget holds no file. -/
def envRemoteEmptyClick : ClickEnv :=
  { isRemote := true, adbAvailable := false, uploadWidget := some (.dictVal []),
    adb := adbRaises, fs := fsDistinct, screenshotDir := "d" }

/-- A remote click environment with one uploaded file of content `[3, 4]`. -/
def envRemoteUploadClick : ClickEnv :=
  { isRemote := true, adbAvailable := false,
    uploadWidget := some (.dictVal [.dictFmt (some [3, 4]) (some "sketch.png")]),
    adb := adbRaises, fs := fsDistinct, screenshotDir := "d" }

/-- A remote click environment whose uploaded file holds zero bytes
(Python `content = b""`). -/
def envRemoteZeroByteClick : ClickEnv :=
  { isRemote := true, adbAvailable := false,
    uploadWidget := some (.dictVal [.dictFmt (some []) (some "empty.png")]),
    adb := adbRaises, fs := fsDistinct, screenshotDir := "d" }

/-- A baseline ingestion environment: PIL absent, directory and write
succeed, no orientation metadata anywhere. -/
def saveEnvPlain : SaveEnv :=
  { timestamp := "20240101_120000", pilAvailable := false,
    pilFormat := fun _ => none, makedirsOk := true, writeOk := true,
    exifTransposeSave := fun b => some b, hasOrientation := fun _ => false }

/-- Like `saveEnvPlain` but PIL identifies every byte string as JPEG. -/
def saveEnvJpegDetect : SaveEnv :=
  { saveEnvPlain with pilAvailable := true, pilFormat := fun _ => some "JPEG" }

/-- Like `saveEnvPlain` but the output directory cannot be created. -/
def saveEnvNoDir : SaveEnv :=
  { saveEnvPlain with makedirsOk := false }

/-- Like `saveEnvPlain` but PIL is available and its EXIF step raises. -/
def saveEnvExifFails : SaveEnv :=
  { saveEnvPlain with pilAvailable := true, exifTransposeSave := fun _ => none }


/-! ## Helper lemmas about the stable descending sort -/

theorem argmaxFirst_mem {l : List (Nat × String)} {m : Nat × String}
    (h : argmaxFirst l = some m) : m ∈ l := by
  induction l with
  | nil => cases h
  | cons x xs ih =>
    rw [argmaxFirst] at h
    cases hx : argmaxFirst xs with
    | none => rw [hx] at h; cases h; exact List.mem_cons_self _ _
    | some m' =>
      rw [hx] at h
      by_cases hc : m'.1 > x.1
      · simp only [hc, if_pos] at h
        cases h
        exact List.mem_cons_of_mem x (ih hx)
      · simp only [hc, if_neg, if_false] at h
        cases h
        exact List.mem_cons_self _ _

theorem insertDesc_head (x : Nat × String) (l : List (Nat × String)) :
    (insertDesc x l).head? = some (match l.head? with
      | none => x
      | some y => if y.1 ≤ x.1 then x else y) := by
  cases l with
  | nil => rfl
  | cons y ys =>
    rw [insertDesc]
    by_cases h : y.1 ≤ x.1 <;> simp [h]

theorem sortDesc_head (l : List (Nat × String)) :
    (sortDesc l).head? = argmaxFirst l := by
  induction l with
  | nil => rfl
  | cons x xs ih =>
    rw [sortDesc, insertDesc_head, argmaxFirst, ih]
    cases h : argmaxFirst xs with
    | none => rfl
    | some m =>
      by_cases hm : m.1 ≤ x.1
      · have hm' : ¬ m.1 > x.1 := Nat.not_lt.mpr hm
        simp [hm, hm']
      · have hm' : m.1 > x.1 := Nat.not_le.mp hm
        simp [hm, hm']

theorem argmaxFirst_strictmax {l : List (Nat × String)} {m : Nat × String}
    (hm : m ∈ l) (hmax : ∀ c ∈ l, c ≠ m → c.1 < m.1) :
    argmaxFirst l = some m := by
  induction l with
  | nil => cases hm
  | cons x xs ih =>
    rcases List.mem_cons.mp hm with rfl | hx
    · cases h : argmaxFirst xs with
      | none => rw [argmaxFirst, h]
      | some m' =>
        have hm' : m' ∈ xs := argmaxFirst_mem h
        have hn : ¬ m'.1 > m.1 := by
          by_cases he : m' = m
          · subst he; exact Nat.lt_irrefl _
          · exact Nat.not_lt.mpr (Nat.le_of_lt (hmax m' (List.mem_cons_of_mem _ hm') he))
        rw [argmaxFirst, h]
        simp [hn]
    · have ihh : argmaxFirst xs = some m :=
        ih hx (fun c hc hne => hmax c (List.mem_cons_of_mem _ hc) hne)
      rw [argmaxFirst, ihh]
      by_cases hxm : x = m
      · subst hxm; simp
      · have : x.1 < m.1 := hmax x (List.mem_cons_self _ _) hxm
        simp [this]

theorem argmaxFirst_first_of_max (l₁ l₂ : List (Nat × String)) (m : Nat × String)
    (h₁ : ∀ c ∈ l₁, c.1 < m.1) (h₂ : ∀ c ∈ l₂, c.1 ≤ m.1) :
    argmaxFirst (l₁ ++ m :: l₂) = some m := by
  induction l₁ with
  | nil =>
    rw [List.nil_append]
    cases h : argmaxFirst l₂ with
    | none => rw [argmaxFirst, h]
    | some m' =>
      have hle := h₂ m' (argmaxFirst_mem h)
      have hn : ¬ m'.1 > m.1 := Nat.not_lt.mpr hle
      rw [argmaxFirst, h]
      simp [hn]
  | cons x xs ih =>
    have hx := h₁ x (List.mem_cons_self _ _)
    have ih' := ih (fun c hc => h₁ c (List.mem_cons_of_mem _ hc))
    rw [List.cons_append, argmaxFirst, ih']
    simp [hx]

/-- `_latest_screenshot` returns the absolute path of the first candidate
attaining the maximal mtime (a consequence of CPython's stable descending
sort), and `None` when the candidate list is empty or `os.listdir` failed. -/
theorem latest_screenshot_eq (fs : FS) (path : String) :
    _latest_screenshot fs path =
      (argmaxFirst (screenshotCandidates fs path)).map (fun c => fs.abspath c.2) := by
  rw [_latest_screenshot, screenshotCandidates]
  cases fs.listdir with
  | none => rfl
  | some names =>
    dsimp only
    rw [sortDesc_head]
    cases h : argmaxFirst (screenshotCandidatesOf fs path names) <;> simp [h]

/-! ## Claims -/

/-- C3: for a readable directory whose matching files (extension
png/jpg/jpeg, case-insensitive) have pairwise-distinct modification times,
`_latest_screenshot` returns exactly the absolute path of the file with the
maximal modification time; it returns `None` when the directory cannot be
listed or when no file matches; and a file whose `getmtime` raises is
skipped, leaving the result as if the entry were absent. -/
theorem C3_locator_functional :
    (∀ (fs : FS) (path : String) (c : Nat × String),
       c ∈ screenshotCandidates fs path →
       (∀ c' ∈ screenshotCandidates fs path, c' ≠ c → c'.1 < c.1) →
       _latest_screenshot fs path = some (fs.abspath c.2)) ∧
    (∀ (fs : FS) (path : String), fs.listdir = none →
       _latest_screenshot fs path = none) ∧
    (∀ (fs : FS) (path : String), screenshotCandidates fs path = [] →
       _latest_screenshot fs path = none) ∧
    (∀ (fs : FS) (path : String) (ns₁ ns₂ : List String) (name : String),
       fs.listdir = some (ns₁ ++ name :: ns₂) →
       fs.getmtime (pathJoin path name) = none →
       _latest_screenshot fs path =
         _latest_screenshot { fs with listdir := some (ns₁ ++ ns₂) } path) := by
  refine ⟨?_, ?_, ?_, ?_⟩
  · intro fs path c hmem hmax
    rw [latest_screenshot_eq, argmaxFirst_strictmax hmem hmax]; rfl
  · intro fs path h
    rw [_latest_screenshot, h]
  · intro fs path h
    rw [latest_screenshot_eq, h]
    rfl
  · intro fs path ns₁ ns₂ name hls hmt
    rw [latest_screenshot_eq, latest_screenshot_eq]
    have hcand : screenshotCandidates fs path =
        screenshotCandidates { fs with listdir := some (ns₁ ++ ns₂) } path := by
      rw [screenshotCandidates, screenshotCandidates, hls]
      dsimp only [screenshotCandidatesOf]
      rw [List.filterMap_append, List.filterMap_append, List.filterMap_cons]
      have : (if extMatches name then
          match fs.getmtime (pathJoin path name) with
          | some m => some (m, pathJoin path name)
          | none => none
        else none) = (none : Option (Nat × String)) := by
        rw [hmt]
        by_cases he : extMatches name <;> simp [he]
      rw [this]
    rw [hcand]

/-- C3 witness: in a directory with candidates `x.png` (mtime 10) and
`y.jpg` (mtime 5), the locator returns the absolute path of `x.png`. -/
theorem C3_locator_functional_witness :
    _latest_screenshot fsDistinct "d" = some "d/x.png" :=
  C3_locator_functional.1 fsDistinct "d" (10, "d/x.png") (by decide) (by decide)

/-- C4 counterexample: with `a.png` and `b.png` sharing mtime 5 and listed in
that order, the locator returns `a.png` — the tie candidate encountered
*first*, not the one encountered last as the claim states. -/
theorem C4_counterexample :
    _latest_screenshot fsTie "d" = some (fsTie.abspath "d/a.png") ∧
    _latest_screenshot fsTie "d" ≠ some (fsTie.abspath "d/b.png") := by
  constructor
  · decide
  · decide

/-- C4 (amended): on ties for the maximal modification time the locator
deterministically returns the tie candidate encountered first during
directory enumeration: CPython's `list.sort(..., reverse=True)` is stable,
so equal keys retain enumeration order and index 0 of the descending-sorted
list is the first-encountered maximal candidate. -/
theorem C4_tie_first_encountered :
    ∀ (fs : FS) (path : String) (l₁ l₂ : List (Nat × String)) (c : Nat × String),
      screenshotCandidates fs path = l₁ ++ c :: l₂ →
      (∀ c' ∈ l₁, c'.1 < c.1) →
      (∀ c' ∈ l₂, c'.1 ≤ c.1) →
      _latest_screenshot fs path = some (fs.abspath c.2) := by
  intro fs path l₁ l₂ c hdec h₁ h₂
  rw [latest_screenshot_eq, hdec, argmaxFirst_first_of_max l₁ l₂ c h₁ h₂]; rfl

/-- C4 witness: on the tie directory the amended rule picks `a.png`, the
first-encountered maximal candidate. -/
theorem C4_tie_first_encountered_witness :
    _latest_screenshot fsTie "d" = some "d/a.png" :=
  C4_tie_first_encountered fsTie "d" [] [(5, "d/b.png")] (5, "d/a.png")
    (by decide) (by decide) (by decide)

/-- C5 counterexample: when the `adb version` spawn fails with an exception
other than `FileNotFoundError`/`TimeoutExpired` (e.g. `PermissionError` for
a non-executable file) — a spawn failure the claim covers — the probe does
raise to its caller instead of returning false. -/
theorem C5_counterexample : _is_adb_available adbRaises = .error () := rfl

/-- C5 (amended): the bridge-present probe returns true exactly when the
version-query process exits with code 0; tool missing
(`FileNotFoundError`), timeout, and non-zero exit all yield false without
raising; but a spawn failure other than tool-missing/timeout is not caught
and propagates to the caller (the probe raises exactly then). -/
theorem C5_probe_characterization :
    ∀ env : AdbEnv,
      (_is_adb_available env = .ok true ↔
        ∃ out, env.versionOutcome = .completed 0 out) ∧
      (_is_adb_available env = .error () ↔ env.versionOutcome = .raisedOther) ∧
      (∀ rc out, env.versionOutcome = .completed rc out → rc ≠ 0 →
        _is_adb_available env = .ok false) ∧
      (env.versionOutcome = .fileNotFound → _is_adb_available env = .ok false) ∧
      (env.versionOutcome = .timedOut → _is_adb_available env = .ok false) := by
  intro env
  cases hv : env.versionOutcome with
  | completed rc out =>
    by_cases hrc : rc = 0 <;> simp [_is_adb_available, hv, hrc]
  | fileNotFound => simp [_is_adb_available, hv]
  | timedOut => simp [_is_adb_available, hv]
  | raisedOther => simp [_is_adb_available, hv]

/-- C5 witness: a present bridge tool (exit code 0) is reported available;
a missing tool (`FileNotFoundError`) is reported unavailable without
raising. -/
theorem C5_probe_characterization_witness :
    _is_adb_available adbGood = .ok true ∧ _is_adb_available adbMissing = .ok false :=
  ⟨((C5_probe_characterization adbGood).1).mpr ⟨[], rfl⟩,
   (C5_probe_characterization adbMissing).2.2.2.1 rfl⟩

/-! Helper characterizations of the probe pair and the capture adapter. -/

theorem is_adb_available_ok_of_not_raised {env : AdbEnv}
    (h : env.versionOutcome ≠ .raisedOther) :
    ∃ b, _is_adb_available env = .ok b := by
  cases hv : env.versionOutcome with
  | completed rc out => exact ⟨rc == 0, by rw [_is_adb_available, hv]⟩
  | fileNotFound => exact ⟨false, by rw [_is_adb_available, hv]⟩
  | timedOut => exact ⟨false, by rw [_is_adb_available, hv]⟩
  | raisedOther => exact absurd hv h

theorem is_device_connected_eq {env : AdbEnv} {b : Bool}
    (hA : _is_adb_available env = .ok b) :
    _is_device_connected env = .ok (b && match env.devicesOutcome with
      | .completed rc out =>
        if rc != 0 then false
        else decide ((((pySplitNewline (pyStrip out)).drop 1).filter
            (fun l => !(pyStrip l).isEmpty && strContainsSub l "device")).length > 0)
      | _ => false) := by
  cases b with
  | false => simp only [_is_device_connected, hA]; rfl
  | true =>
    cases hd : env.devicesOutcome with
    | completed rc out =>
      simp only [_is_device_connected, hA, hd]
      by_cases hrc : (rc != 0) = true
      · simp [hrc]
      · simp only [Bool.not_eq_true] at hrc
        simp only [hrc]
        rfl
    | fileNotFound => simp only [_is_device_connected, hA, hd]; rfl
    | timedOut => simp only [_is_device_connected, hA, hd]; rfl
    | raisedOther => simp only [_is_device_connected, hA, hd]; rfl

theorem capture_via_adb_eq {env : AdbEnv} {b c : Bool}
    (hA : _is_adb_available env = .ok b) (hC : _is_device_connected env = .ok c) :
    _capture_via_adb env = .ok (if b && c then
      (match env.screencapOutcome with
       | .completed rc out =>
         if rc == 0 && !(List.isEmpty out) then some out else none
       | _ => none)
      else none) := by
  cases b with
  | false => simp only [_capture_via_adb, hA]; rfl
  | true =>
    cases c with
    | false => simp only [_capture_via_adb, hA, hC]; rfl
    | true =>
      cases hs : env.screencapOutcome with
      | completed rc out =>
        simp only [_capture_via_adb, hA, hC, hs]
        by_cases hcond : (rc == 0 && !(List.isEmpty out)) = true
        · simp only [hcond]
          rfl
        · simp only [Bool.not_eq_true] at hcond
          simp only [hcond]
          rfl
      | fileNotFound => simp only [_capture_via_adb, hA, hC, hs]; rfl
      | timedOut => simp only [_capture_via_adb, hA, hC, hs]; rfl
      | raisedOther => simp only [_capture_via_adb, hA, hC, hs]; rfl

/-- C6 counterexample: when the version-query spawn of the gating probe
fails with an exception other than `FileNotFoundError`/`TimeoutExpired`,
`_capture_via_adb` raises to its caller (the gate calls sit outside its
`try`), contradicting the claim that it never raises and returns `None` in
every failure case. -/
theorem C6_counterexample : _capture_via_adb adbRaises = .error () := rfl

/-- C6 (amended): when the bridge probe reports unavailable, or a device is
not connected, the adapter returns `None` without spawning the capture
process (its result is independent of the capture spawn's outcome);
otherwise it returns the captured stdout exactly when the capture process
exits 0 with non-empty output, returning `None` in every other capture
outcome (timeout, non-zero exit, empty output, any exception) without
raising; the adapter raises only when the version-query spawn of the gating
probe itself raises an exception that the probe does not catch. -/
theorem C6_adapter_error_handling :
    ∀ env : AdbEnv,
      (_is_adb_available env = .ok false →
        _capture_via_adb env = .ok none ∧
        ∀ o, _capture_via_adb { env with screencapOutcome := o } = .ok none) ∧
      (_is_adb_available env = .ok true → _is_device_connected env = .ok false →
        _capture_via_adb env = .ok none ∧
        ∀ o, _capture_via_adb { env with screencapOutcome := o } = .ok none) ∧
      (_is_adb_available env = .ok true → _is_device_connected env = .ok true →
        (∀ bs, _capture_via_adb env = .ok (some bs) ↔
          (env.screencapOutcome = .completed 0 bs ∧ bs ≠ [])) ∧
        (_capture_via_adb env = .ok none ∨
         ∃ bs, _capture_via_adb env = .ok (some bs))) ∧
      (_capture_via_adb env = .error () ↔ env.versionOutcome = .raisedOther) := by
  intro env
  refine ⟨?_, ?_, ?_, ?_⟩
  · intro hA
    constructor
    · simp only [_capture_via_adb, hA]; rfl
    · intro o
      have hA' : _is_adb_available { env with screencapOutcome := o } = .ok false := hA
      simp only [_capture_via_adb, hA']; rfl
  · intro hA hC
    constructor
    · simp only [_capture_via_adb, hA, hC]; rfl
    · intro o
      have hA' : _is_adb_available { env with screencapOutcome := o } = .ok true := hA
      have hC' : _is_device_connected { env with screencapOutcome := o } = .ok false := hC
      simp only [_capture_via_adb, hA', hC']; rfl
  · intro hA hC
    have hcap := capture_via_adb_eq hA hC
    simp only [Bool.and_self, if_pos] at hcap
    constructor
    · intro bs
      rw [hcap]
      cases hs : env.screencapOutcome with
      | completed rc out =>
        by_cases hrc : rc = 0
        · subst hrc
          by_cases hout : List.isEmpty out = true
          · simp [hout, List.isEmpty_iff.mp hout]
          · simp only [Bool.not_eq_true] at hout
            have hne : out ≠ [] := by
              intro hnil; rw [hnil] at hout; cases hout
            simp [hout, hne]
            intro he
            exact he ▸ hne
        · have : (rc == 0) = false := by
            cases h : (rc == 0) with
            | true => exact absurd (by exact_mod_cast beq_iff_eq.mp h) hrc
            | false => rfl
          simp [this, hrc]
      | fileNotFound => simp
      | timedOut => simp
      | raisedOther => simp
    · rw [hcap]
      cases hs : env.screencapOutcome with
      | completed rc out =>
        by_cases hcond : (rc == 0 && !(List.isEmpty out)) = true
        · right; exact ⟨out, by simp [hcond]⟩
        · left; simp only [Bool.not_eq_true] at hcond; simp [hcond]
      | fileNotFound => left; rfl
      | timedOut => left; rfl
      | raisedOther => left; rfl
  · constructor
    · intro h
      by_cases hv : env.versionOutcome = .raisedOther
      · exact hv
      · exfalso
        obtain ⟨b, hA⟩ := is_adb_available_ok_of_not_raised hv
        have hC := is_device_connected_eq hA
        have := capture_via_adb_eq hA hC
        rw [this] at h
        cases h
    · intro hv
      simp only [_capture_via_adb, _is_adb_available, hv]
      rfl

/-- C6 witness: with the bridge missing, the adapter returns `None` without
raising, independently of the capture spawn's outcome; with bridge and
device present, a successful non-empty capture returns those bytes. -/
theorem C6_adapter_error_handling_witness :
    _capture_via_adb adbMissing = .ok none ∧
    _capture_via_adb { adbMissing with screencapOutcome := .completed 0 [1] } = .ok none ∧
    _capture_via_adb adbGood = .ok (some [9, 9]) := by
  refine ⟨((C6_adapter_error_handling adbMissing).1 (by decide)).1,
          ((C6_adapter_error_handling adbMissing).1 (by decide)).2 (.completed 0 [1]),
          ((C6_adapter_error_handling adbGood).2.2.1 (by decide) (by decide)).1 [9, 9]
            |>.mpr ⟨by decide, by decide⟩⟩

/-- C1: per orchestration call, once a strategy yields non-empty bytes the
lower-priority strategies are not evaluated and have no effect: if the USB
strategy yields non-empty bytes, those bytes are used and the result (data,
method, and every printed message) is independent of the upload widget, the
filesystem, and the screenshot directory; if the upload strategy yields
non-empty bytes, those bytes are used and the result is independent of the
ADB environment, the filesystem, and the screenshot directory (the folder
strategy is never evaluated when remote). -/
theorem C1_strategy_short_circuit :
    (∀ (env : ClickEnv) (bs : ByteStr),
       env.isRemote = false → env.adbAvailable = true →
       _capture_via_adb env.adb = .ok (some bs) → bs ≠ [] →
       (∃ r, _on_capture_click env = .ok r ∧ r.imageData = some bs ∧
         r.captureMethod = "USB (ADB)") ∧
       (∀ w fs dir,
         _on_capture_click { env with uploadWidget := w, fs := fs, screenshotDir := dir } =
           _on_capture_click env)) ∧
    (∀ (env : ClickEnv) (w : UploadValue) (bs : ByteStr),
       env.isRemote = true → env.uploadWidget = some w →
       (uploadExtract w).1 = some bs → bs ≠ [] →
       (∃ r, _on_capture_click env = .ok r ∧ r.imageData = some bs ∧
         r.captureMethod = "file upload") ∧
       (∀ a fs dir,
         _on_capture_click { env with adb := a, fs := fs, screenshotDir := dir } =
           _on_capture_click env)) := by
  constructor
  · intro env bs hRem hAdb hCap hbs
    obtain ⟨b, bs', rfl⟩ : ∃ b bs', bs = b :: bs' := by
      cases bs with
      | nil => exact absurd rfl hbs
      | cons b t => exact ⟨b, t, rfl⟩
    constructor
    · refine ⟨{ imageData := some (b :: bs'), sourcePath := none,
                captureMethod := "USB (ADB)",
                msgs := [msgCapturingUsb, msgUsbCaptured] }, ?_, rfl, rfl⟩
      simp only [_on_capture_click, hRem, hAdb, hCap]
      rfl
    · intro w fs dir
      simp only [_on_capture_click, hRem, hAdb, hCap]
      rfl
  · intro env w bs hRem hW hExtract hbs
    obtain ⟨b, bs', rfl⟩ : ∃ b bs', bs = b :: bs' := by
      cases bs with
      | nil => exact absurd rfl hbs
      | cons b t => exact ⟨b, t, rfl⟩
    have hw2 : uploadExtract w = (some (b :: bs'), (uploadExtract w).2) := by
      rw [← hExtract]
    constructor
    · refine ⟨{ imageData := some (b :: bs'), sourcePath := (uploadExtract w).2,
                captureMethod := "file upload", msgs := [msgUploadCaptured] }, ?_, rfl, rfl⟩
      simp only [_on_capture_click, hRem, hW]
      rw [hw2]
      rfl
    · intro a fs dir
      simp only [_on_capture_click, hRem, hW]
      rw [hw2]
      rfl

/-- C1 witness: with ADB capturing `[9, 9]` locally, those bytes are used
with method "USB (ADB)"; with a remote upload of `[3, 4]`, those bytes are
used with method "file upload". -/
theorem C1_strategy_short_circuit_witness :
    (∃ r, _on_capture_click envUsbClick = .ok r ∧ r.imageData = some [9, 9] ∧
      r.captureMethod = "USB (ADB)") ∧
    (∃ r, _on_capture_click envRemoteUploadClick = .ok r ∧ r.imageData = some [3, 4] ∧
      r.captureMethod = "file upload") :=
  ⟨(C1_strategy_short_circuit.1 envUsbClick [9, 9] rfl rfl (by decide) (by decide)).1,
   (C1_strategy_short_circuit.2 envRemoteUploadClick
      (.dictVal [.dictFmt (some [3, 4]) (some "sketch.png")]) [3, 4]
      rfl rfl rfl (by decide)).1⟩

/-- C2 counterexample: a remote click whose upload supplies a zero-byte
content (`b""` — it "supplies no bytes") is let through by the handler's
`image_data is None` check: the remote no-image message is never printed
and the handler proceeds towards ingestion with the empty bytes. -/
theorem C2_counterexample :
    ∃ r, _on_capture_click envRemoteZeroByteClick = .ok r ∧
      r.imageData = some [] ∧ r.msgs = [] :=
  ⟨{ imageData := some [], sourcePath := some "empty.png",
     captureMethod := "", msgs := [] }, by decide, rfl, rfl⟩

/-- C2 (amended): in a remote environment, when the upload source supplies
no byte value at all (no file uploaded, or the uploaded entry carries no
content), the orchestrator ends with `image_data = None` and prints exactly
the remote-specific no-image message; but when the upload supplies a
zero-byte content (`b""`), the `image_data is None` check lets it through —
no message is printed and the empty bytes proceed towards ingestion. In
both cases the behaviour is independent of the ADB environment, the
filesystem, and the screenshot directory — the USB strategy and the
folder-based Screenshot Locator are never invoked. -/
theorem C2_remote_no_upload :
    ∀ env : ClickEnv, env.isRemote = true →
      ((∀ w, env.uploadWidget = some w → (uploadExtract w).1 = none) →
        (∃ r, _on_capture_click env = .ok r ∧ r.imageData = none ∧
          r.msgs = [msgRemoteNoUpload]) ∧
        (∀ a fs dir,
          _on_capture_click { env with adb := a, fs := fs, screenshotDir := dir } =
            _on_capture_click env)) ∧
      (∀ w, env.uploadWidget = some w → (uploadExtract w).1 = some [] →
        (∃ r, _on_capture_click env = .ok r ∧ r.imageData = some [] ∧
          r.msgs = []) ∧
        (∀ a fs dir,
          _on_capture_click { env with adb := a, fs := fs, screenshotDir := dir } =
            _on_capture_click env)) := by
  intro env hRem
  constructor
  · intro hup
    cases hW : env.uploadWidget with
    | none =>
      constructor
      · refine ⟨{ imageData := none, sourcePath := none, captureMethod := "",
                  msgs := [msgRemoteNoUpload] }, ?_, rfl, rfl⟩
        simp only [_on_capture_click, hRem, hW]
        rfl
      · intro a fs dir
        simp only [_on_capture_click, hRem, hW]
        rfl
    | some w =>
      have hc := hup w hW
      have hw2 : uploadExtract w = (none, (uploadExtract w).2) := by
        rw [← hc]
      constructor
      · refine ⟨{ imageData := none, sourcePath := (uploadExtract w).2, captureMethod := "",
                  msgs := [msgRemoteNoUpload] }, ?_, rfl, rfl⟩
        simp only [_on_capture_click, hRem, hW]
        rw [hw2]
        rfl
      · intro a fs dir
        simp only [_on_capture_click, hRem, hW]
        rw [hw2]
        rfl
  · intro w hW hzero
    have hw2 : uploadExtract w = (some [], (uploadExtract w).2) := by
      rw [← hzero]
    constructor
    · refine ⟨{ imageData := some [], sourcePath := (uploadExtract w).2, captureMethod := "",
                msgs := [] }, ?_, rfl, rfl⟩
      simp only [_on_capture_click, hRem, hW]
      rw [hw2]
      rfl
    · intro a fs dir
      simp only [_on_capture_click, hRem, hW]
      rw [hw2]
      rfl

/-- C2 witness: a remote click with an empty upload widget prints exactly
the remote-specific message and yields no image data; a remote click with a
zero-byte upload prints nothing and carries the empty bytes forward. -/
theorem C2_remote_no_upload_witness :
    (∃ r, _on_capture_click envRemoteEmptyClick = .ok r ∧ r.imageData = none ∧
      r.msgs = [msgRemoteNoUpload]) ∧
    (∃ r, _on_capture_click envRemoteZeroByteClick = .ok r ∧ r.imageData = some [] ∧
      r.msgs = []) :=
  ⟨((C2_remote_no_upload envRemoteEmptyClick rfl).1 (fun w hw => by
      simp only [envRemoteEmptyClick] at hw
      injection hw with h
      subst h
      rfl)).1,
   ((C2_remote_no_upload envRemoteZeroByteClick rfl).2
      (.dictVal [.dictFmt (some []) (some "empty.png")]) rfl rfl).1⟩

theorem pyTruthyStr_of_ne {s : String} (h : s ≠ "") : pyTruthyStr s = true := by
  cases s with
  | mk data =>
    cases data with
    | nil => exact absurd rfl h
    | cons c cs => rfl

theorem strEndsWith_append (a b : String) : strEndsWith (a ++ b) b = true := by
  rw [strEndsWith]
  have h : (a ++ b).toList = a.toList ++ b.toList := rfl
  rw [h]
  simp only [List.isSuffixOf_iff_suffix]
  exact List.suffix_append _ _

/-- The filename generated by `_process_and_save_image` is
`diagram_<timestamp><ext>` with the extension chosen from a truthy source
hint (splitext extension, `or ".png"`), else by PIL byte inspection with a
`.png` default, regardless of how the rest of the call fares. -/
theorem save_filename_eq (env : SaveEnv) (d : ByteStr) (sp : Option String) :
    (_process_and_save_image env d sp).filename =
      "diagram_" ++ env.timestamp ++
        (if pyTruthyOptStr sp then
          (if pyTruthyStr (splitextExt (sp.getD "")) then splitextExt (sp.getD "") else ".png")
        else if env.pilAvailable then
          (match env.pilFormat d with
           | some fmt => format_map fmt
           | none => ".png")
        else ".png") := by
  rw [_process_and_save_image]
  by_cases hm : env.makedirsOk <;> by_cases hw : env.writeOk <;>
    by_cases hp : env.pilAvailable <;>
      simp only [hm, hw, hp, Bool.not_true, Bool.not_false, if_true, if_false] <;>
        first
          | rfl
          | (cases env.exifTransposeSave d <;> rfl)

/-- C7 counterexample: with no source hint but the imaging library
identifying the bytes as JPEG, the saved name gets a `.jpg` extension, not
PNG; and the source hint `".jpg"` (which ends in `.jpg`) yields a `.png`
name, because `os.path.splitext` gives a dotfile no extension. -/
theorem C7_counterexample :
    strEndsWith (_process_and_save_image saveEnvJpegDetect [1] none).filename ".png" = false ∧
    strEndsWith (_process_and_save_image saveEnvJpegDetect [1] (some ".jpg")).filename ".jpg"
      = false := by
  constructor
  · decide
  · decide

/-- C7 (amended): with no source hint the saved name is
`diagram_<timestamp><ext>` where `<ext>` is `.jpg` when the imaging library
is importable and identifies the bytes as JPEG/JPEG2000, and `.png` in every
other case (library absent, detection failure, PNG, or unknown format);
with a source hint whose `os.path.splitext` extension is `.jpg`, the saved
name ends in `.jpg`. -/
theorem C7_extension_rules :
    ∀ (env : SaveEnv) (d : ByteStr),
      (env.pilAvailable = false ∨
        (env.pilFormat d ≠ some "JPEG" ∧ env.pilFormat d ≠ some "JPEG2000") →
        (_process_and_save_image env d none).filename =
          "diagram_" ++ env.timestamp ++ ".png") ∧
      (env.pilAvailable = true →
        (env.pilFormat d = some "JPEG" ∨ env.pilFormat d = some "JPEG2000") →
        (_process_and_save_image env d none).filename =
          "diagram_" ++ env.timestamp ++ ".jpg") ∧
      (∀ s, splitextExt s = ".jpg" →
        strEndsWith (_process_and_save_image env d (some s)).filename ".jpg" = true) := by
  intro env d
  refine ⟨?_, ?_, ?_⟩
  · intro h
    rw [save_filename_eq]
    rcases h with h | ⟨h1, h2⟩
    · simp [pyTruthyOptStr, h]
    · cases hp : env.pilAvailable with
      | false => simp [pyTruthyOptStr]
      | true =>
        simp only [pyTruthyOptStr, Bool.false_eq_true, if_false, if_true]
        cases hf : env.pilFormat d with
        | none => rfl
        | some fmt =>
          rw [hf] at h1 h2
          dsimp only
          have hfmt : format_map fmt = ".png" := by
            rw [format_map]
            by_cases e1 : fmt == "PNG"
            · simp [e1]
            · simp only [e1, if_false]
              by_cases e2 : fmt == "JPEG"
              · exact absurd (by rw [(beq_iff_eq).mp e2]) h1
              · simp only [e2, if_false]
                by_cases e3 : fmt == "JPEG2000"
                · exact absurd (by rw [(beq_iff_eq).mp e3]) h2
                · simp [e3]
          rw [hfmt]
  · intro hp h
    rw [save_filename_eq]
    simp only [pyTruthyOptStr, hp, if_false, if_true]
    rcases h with h | h <;> rw [h] <;> rfl
  · intro s hs
    have hne : s ≠ "" := by
      intro he
      rw [he] at hs
      exact absurd hs (by decide)
    have ht : pyTruthyStr s = true := pyTruthyStr_of_ne hne
    rw [save_filename_eq]
    simp only [pyTruthyOptStr, ht, Option.getD_some, hs, if_true]
    have hj : pyTruthyStr ".jpg" = true := rfl
    rw [hj]
    simp only [if_true]
    exact strEndsWith_append _ _

/-- C7 witness: with PIL unavailable and no hint, the saved name is
`diagram_20240101_120000.png`; with hint `photo.jpg`, the name ends in
`.jpg`. -/
theorem C7_extension_rules_witness :
    (_process_and_save_image saveEnvPlain [1] none).filename =
      "diagram_" ++ saveEnvPlain.timestamp ++ ".png" ∧
    strEndsWith (_process_and_save_image saveEnvPlain [1] (some "photo.jpg")).filename ".jpg"
      = true :=
  ⟨(C7_extension_rules saveEnvPlain [1]).1 (Or.inl rfl),
   (C7_extension_rules saveEnvPlain [1]).2.2 "photo.jpg" (by decide)⟩

/-- C8: ingestion returns no path exactly when directory creation or the
file write fails; each failure prints the corresponding I/O message (and
nothing else); a failure of the best-effort EXIF rotation step is only
logged — the destination path is still returned. -/
theorem C8_io_failure_semantics :
    ∀ (env : SaveEnv) (d : ByteStr) (sp : Option String),
      ((_process_and_save_image env d sp).result = none ↔
        (env.makedirsOk = false ∨ env.writeOk = false)) ∧
      (env.makedirsOk = false →
        (_process_and_save_image env d sp).msgs = [msgMkdirFailed]) ∧
      (env.makedirsOk = true → env.writeOk = false →
        (_process_and_save_image env d sp).msgs =
          [msgWriteFailed (pathJoin DIAGRAM_DIR (_process_and_save_image env d sp).filename)]) ∧
      (env.makedirsOk = true → env.writeOk = true → env.pilAvailable = true →
        env.exifTransposeSave d = none →
        (_process_and_save_image env d sp).result =
          some (pathJoin DIAGRAM_DIR (_process_and_save_image env d sp).filename) ∧
        (_process_and_save_image env d sp).msgs = [msgExifFailed]) := by
  intro env d sp
  refine ⟨?_, ?_, ?_, ?_⟩
  · cases hm : env.makedirsOk <;> cases hw : env.writeOk <;> cases hp : env.pilAvailable <;>
      (cases hex : env.exifTransposeSave d <;> simp [_process_and_save_image, hm, hw, hp, hex])
  · intro hm
    simp [_process_and_save_image, hm]
  · intro hm hw
    simp [_process_and_save_image, hm, hw]
  · intro hm hw hp hex
    simp [_process_and_save_image, hm, hw, hp, hex]

/-- C8 witness: with an uncreatable output directory the call returns no
path after printing the directory message; with PIL present but its EXIF
step failing, the path is still returned and only the rotation message is
printed. -/
theorem C8_io_failure_semantics_witness :
    (_process_and_save_image saveEnvNoDir [1] none).result = none ∧
    (_process_and_save_image saveEnvNoDir [1] none).msgs = [msgMkdirFailed] ∧
    (_process_and_save_image saveEnvExifFails [1] none).result =
      some (pathJoin DIAGRAM_DIR (_process_and_save_image saveEnvExifFails [1] none).filename) ∧
    (_process_and_save_image saveEnvExifFails [1] none).msgs = [msgExifFailed] :=
  ⟨(C8_io_failure_semantics saveEnvNoDir [1] none).1.mpr (Or.inl rfl),
   (C8_io_failure_semantics saveEnvNoDir [1] none).2.1 rfl,
   ((C8_io_failure_semantics saveEnvExifFails [1] none).2.2.2 rfl rfl rfl rfl).1,
   ((C8_io_failure_semantics saveEnvExifFails [1] none).2.2.2 rfl rfl rfl rfl).2⟩

/-- C9: when directory creation and the write succeed, the destination file
immediately after the write (before any orientation normalization) holds
exactly the input bytes; and provided the (spec-modelled) imaging-library
rewrite leaves images without orientation metadata byte-identical, the final
file equals the input bytes whenever the image carries no orientation
metadata. -/
theorem C9_round_trip :
    ∀ (env : SaveEnv) (d : ByteStr) (sp : Option String),
      env.makedirsOk = true → env.writeOk = true →
      (_process_and_save_image env d sp).contentsAfterWrite = some d ∧
      ((∀ b, env.hasOrientation b = false → env.exifTransposeSave b = some b) →
        env.hasOrientation d = false →
        (_process_and_save_image env d sp).finalContents = some d) := by
  intro env d sp hm hw
  constructor
  · cases hp : env.pilAvailable <;>
      simp only [_process_and_save_image, hm, hw, hp, Bool.not_true, if_false,
        if_true] <;>
      first
        | rfl
        | (cases env.exifTransposeSave d <;> rfl)
  · intro hid hor
    have hts : env.exifTransposeSave d = some d := hid d hor
    cases hp : env.pilAvailable <;>
      simp only [_process_and_save_image, hm, hw, hp, hts, Bool.not_true, if_false,
        if_true] <;> rfl

/-- C9 witness: with PIL absent, the written and final contents are exactly
the input bytes. -/
theorem C9_round_trip_witness :
    (_process_and_save_image saveEnvPlain [5, 6] none).contentsAfterWrite = some [5, 6] ∧
    (_process_and_save_image saveEnvPlain [5, 6] none).finalContents = some [5, 6] :=
  ⟨(C9_round_trip saveEnvPlain [5, 6] none rfl rfl).1,
   (C9_round_trip saveEnvPlain [5, 6] none rfl rfl).2 (fun _ _ => rfl) rfl⟩

/-- C10: an empty-string source hint (as produced by an upload with missing
filename metadata) behaves exactly like an absent hint — the extension comes
from byte inspection with a PNG default; whereas a non-empty hint whose
splitext extension is empty yields a `.png` name directly, independently of
the byte-inspection function. -/
theorem C10_hint_handling :
    ∀ (env : SaveEnv) (d : ByteStr),
      (_process_and_save_image env d (some "") = _process_and_save_image env d none) ∧
      (∀ s, s ≠ "" → splitextExt s = "" →
        (_process_and_save_image env d (some s)).filename =
          "diagram_" ++ env.timestamp ++ ".png" ∧
        (∀ f, _process_and_save_image { env with pilFormat := f } d (some s) =
          _process_and_save_image env d (some s))) := by
  intro env d
  constructor
  · rfl
  · intro s hne hext
    have ht := pyTruthyStr_of_ne hne
    constructor
    · rw [save_filename_eq]
      simp only [pyTruthyOptStr, ht, Option.getD_some, hext, if_true]
      rfl
    · intro f
      simp only [_process_and_save_image, pyTruthyOptStr, ht, if_true]

/-- C10 witness: a hint without extension (`"noext"`) produces a `.png`
name. -/
theorem C10_hint_handling_witness :
    (_process_and_save_image saveEnvPlain [1] (some "noext")).filename =
      "diagram_" ++ saveEnvPlain.timestamp ++ ".png" :=
  ((C10_hint_handling saveEnvPlain [1]).2 "noext" (by decide) (by decide)).1
